import Mathlib

/-!
Shallow embedding of the Smart-Campus anomaly/alert engine
(`backend/app/anomaly_detection.py`), its data model (`backend/app/models.py`,
`backend/app/schemas.py`), the alert operator endpoints
(`backend/app/routers/alerts.py`) and the reading-creation path
(`backend/app/ingestion.py`).

Conventions of the embedding:
* Python floats are modelled as rationals (`ℚ`).
* Timestamps (`reading_date`) are rationals measured in days, so
  `timedelta(days=n)` is the literal `n`.
* SQLAlchemy queries over a session become list filters over an explicit
  `DB` record; `first()` is `List.find?`/`head?`, `ORDER BY ... DESC` is a
  stable insertion sort (SQL leaves tie order unspecified; the embedding
  fixes one).
* The session is flush-at-end (`db.flush()` on line 209 of
  `anomaly_detection.py`): queries issued during one `check_anomalies`
  call observe only rows present when the call started.  `app/database.py`
  (the session factory) is not part of the provided sources; this
  visibility rule is taken from the spec's orchestrator section
  ("accumulating created alert rows; if any alerts were created, they are
  flushed").
-/

namespace SmartCampus

/-- `models.py` `UtilityType`. -/
inductive UtilityType
  | water
  | electricity
deriving DecidableEq, Repr

/-- `models.py` `ZoneCategory`. -/
inductive ZoneCategory
  | academic
  | residential
  | research
  | administration
  | common
deriving DecidableEq, Repr

/-- `models.py` `AlertStatus`. -/
inductive AlertStatus
  | pending
  | acknowledged
  | resolved
deriving DecidableEq, Repr

/-- The alert kinds referenced by the engine.  Note: the `AlertType` enum in
`models.py` (lines 30–33) declares only the first three values; the engine
(`anomaly_detection.py` lines 175, 199) additionally references
`AlertType.RULE_TRIGGER`, which is absent from `models.py` — see the claim
about the persisted data model.  The engine embedding uses the four-value
type the engine code is written against. -/
inductive AlertType
  | spike
  | threshold_breach
  | continuous_high
  | rule_trigger
deriving DecidableEq, Repr

/-- `models.py` `Building` — the fields the engine reads. -/
structure Building where
  id : ℕ
  water_threshold : ℚ
  electricity_threshold : ℚ
  zone : Option ZoneCategory
deriving DecidableEq, Repr

/-- `models.py` `UtilityReading` — the fields the engine reads. -/
structure Reading where
  id : ℕ
  building_id : ℕ
  utility_type : UtilityType
  value : ℚ
  unit : String
  reading_date : ℚ
deriving DecidableEq, Repr

/-- `models.py` `Alert`.  `id` is the database row id (0 for rows the engine
creates before the store assigns one; no engine query reads it).  `status`
is `pending` for engine-created rows (the column default applied at flush). -/
structure Alert where
  id : ℕ
  building_id : ℕ
  alert_type : AlertType
  utility_type : UtilityType
  severity : String
  message : String
  reading_id : Option ℕ
  status : AlertStatus
  acknowledged_by : Option ℕ := none
  acknowledged_at : Option ℚ := none
  resolved_by : Option ℕ := none
  resolved_at : Option ℚ := none
  resolution_notes : Option String := none
deriving DecidableEq, Repr

/-- The `AlertRule` record as the engine and the rule CRUD surface use it
(`schemas.py` `AlertRuleBase`, `anomaly_detection.py` lines 97–206).
`comparison_window_days`, `consecutive_count` and `severity` are optional
because the engine guards them with Python `or` defaults. -/
structure AlertRule where
  id : ℕ
  name : String
  is_active : Bool
  scope_type : String
  building_id : Option ℕ
  zone : Option ZoneCategory
  utility_type : UtilityType
  condition_type : String
  threshold_value : ℚ
  comparison_window_days : Option ℤ
  consecutive_count : Option ℤ
  severity : Option String
deriving DecidableEq, Repr

/-- The relational store visible through the transactional session. -/
structure DB where
  buildings : List Building
  readings : List Reading
  alerts : List Alert
  rules : List AlertRule
deriving DecidableEq, Repr

/-- Python `x or d` for an optional integer (`None` and `0` are falsy). -/
def pyOrInt (x : Option ℤ) (d : ℤ) : ℤ :=
  match x with
  | none => d
  | some v => if v = 0 then d else v

/-- Python `x or d` for an optional string (`None` and `""` are falsy). -/
def pyOrStr (x : Option String) (d : String) : String :=
  match x with
  | none => d
  | some s => if s = "" then d else s

/-- Python `str.capitalize`: first character upper-cased, rest lower-cased. -/
def pyCapitalize (s : String) : String :=
  match s.toList with
  | [] => ""
  | c :: cs => String.mk (c.toUpper :: cs.map Char.toLower)

/-- `UtilityType.value` (`models.py`: the enum's string value). -/
def utilityLabel : UtilityType → String
  | UtilityType.water => "water"
  | UtilityType.electricity => "electricity"

/-- Two-digit zero-padding for the fractional part of `fmt2`. -/
def pad2 (n : ℕ) : String :=
  if n < 10 then "0" ++ toString n else toString n

/-- Models Python `f"{x:.2f}"`: the rational rendered with two decimal
places.  Exact midpoints round half-up here, while CPython rounds the
underlying binary double half-to-even; the two agree except at such
midpoints (and Python prints `-0.00` for tiny negatives, which this
function renders as `0.00`).  No claim depends on those edge cases. -/
def fmt2 (q : ℚ) : String :=
  let n : ℤ := round (q * 100)
  if n < 0 then
    "-" ++ toString (n.natAbs / 100) ++ "." ++ pad2 (n.natAbs % 100)
  else
    toString (n.toNat / 100) ++ "." ++ pad2 (n.toNat % 100)

/-- `statistics.mean` (callers guarantee a nonempty sample; `ℚ` division by
zero returns 0 on the empty list, a case no detector reaches). -/
def mean (values : List ℚ) : ℚ := values.sum / values.length

/-- The square of `statistics.stdev`: the sample variance
`Σ (x − mean)² / (n − 1)`, and `0` when fewer than two values are supplied
(mirroring `statistics.stdev(values) if len(values) > 1 else 0`).
`statistics.stdev values = Real.sqrt (sampleVariance values)`, so the
source's guard `stdev > 0` is `0 < sampleVariance values`. -/
def sampleVariance (values : List ℚ) : ℚ :=
  if 1 < values.length then
    (values.map (fun x => (x - mean values) ^ 2)).sum / ((values.length : ℚ) - 1)
  else 0

/-- The source condition `stdev > 0 and (v - mean)/stdev > c` with
`stdev = Real.sqrt variance`, expressed over `ℚ` without square roots:
given `0 < variance`, `(v − mean)/√variance > c` holds iff
* for `0 ≤ c`: `0 < v − mean` and `c² · variance < (v − mean)²`;
* for `c < 0`: `0 ≤ v − mean`, or `(v − mean)² < c² · variance`.
`zScoreExceeds_iff_real` below proves this encoding correct. -/
def zScoreExceeds (v mean variance c : ℚ) : Bool :=
  decide (0 < variance) &&
    (if 0 ≤ c then
      decide (0 < v - mean) && decide (c ^ 2 * variance < (v - mean) ^ 2)
    else
      decide (0 ≤ v - mean) || decide ((v - mean) ^ 2 < c ^ 2 * variance))

/-- Correctness of the square-root-free encoding: for a positive variance,
`zScoreExceeds v μ var c` holds exactly when the real z-score
`(v − μ)/√var` strictly exceeds `c`. -/
lemma zScoreExceeds_iff_real (v μ var c : ℚ) (hvar : 0 < var) :
    zScoreExceeds v μ var c = true ↔
      (c : ℝ) < ((v : ℝ) - (μ : ℝ)) / Real.sqrt (var : ℝ) := by
  have hvarR : (0 : ℝ) < (var : ℝ) := by exact_mod_cast hvar
  have hs : (0 : ℝ) < Real.sqrt (var : ℝ) := Real.sqrt_pos.mpr hvarR
  have hs2 : Real.sqrt (var : ℝ) ^ 2 = (var : ℝ) := Real.sq_sqrt hvarR.le
  rw [lt_div_iff₀ hs]
  unfold zScoreExceeds
  by_cases hc : 0 ≤ c
  · rw [if_pos hc]
    simp only [Bool.and_eq_true, decide_eq_true_eq]
    have hcR : (0 : ℝ) ≤ (c : ℝ) := by exact_mod_cast hc
    constructor
    · rintro ⟨-, hpos, hlt⟩
      have hposR : (0 : ℝ) < (v : ℝ) - μ := by exact_mod_cast hpos
      have hltR : (c : ℝ) ^ 2 * var < ((v : ℝ) - μ) ^ 2 := by exact_mod_cast hlt
      nlinarith [mul_nonneg hcR hs.le, hs2]
    · intro h
      have hcs : (0 : ℝ) ≤ (c : ℝ) * Real.sqrt var := mul_nonneg hcR hs.le
      have hposR : (0 : ℝ) < (v : ℝ) - μ := lt_of_le_of_lt hcs h
      have hltR : (c : ℝ) ^ 2 * var < ((v : ℝ) - μ) ^ 2 := by nlinarith [hs2]
      exact ⟨hvar, by exact_mod_cast hposR, by exact_mod_cast hltR⟩
  · rw [if_neg hc]
    push_neg at hc
    simp only [Bool.and_eq_true, Bool.or_eq_true, decide_eq_true_eq]
    have hcR : (c : ℝ) < 0 := by exact_mod_cast hc
    have hcs : (c : ℝ) * Real.sqrt var < 0 := mul_neg_of_neg_of_pos hcR hs
    constructor
    · rintro ⟨-, h | h⟩
      · have hdR : (0 : ℝ) ≤ (v : ℝ) - μ := by exact_mod_cast h
        linarith
      · have hR : ((v : ℝ) - μ) ^ 2 < (c : ℝ) ^ 2 * var := by exact_mod_cast h
        nlinarith [hs2]
    · intro h
      refine ⟨hvar, ?_⟩
      by_cases hd : (0 : ℚ) ≤ v - μ
      · exact Or.inl hd
      · right
        push_neg at hd
        have hdR : (v : ℝ) - μ < 0 := by exact_mod_cast hd
        have hR : ((v : ℝ) - μ) ^ 2 < (c : ℝ) ^ 2 * var := by nlinarith [hs2]
        exact_mod_cast hR

/-- `db.query(Building).filter(Building.id == bid).first()`. -/
def firstBuilding (db : DB) (bid : ℕ) : Option Building :=
  db.buildings.find? (fun b => b.id == bid)

/-- `building.water_threshold if utility == WATER else building.electricity_threshold`
(`anomaly_detection.py` lines 17–20). -/
def thresholdFor (b : Building) (u : UtilityType) : ℚ :=
  if u = UtilityType.water then b.water_threshold else b.electricity_threshold

/-- Stable insert for descending order by `reading_date`. -/
def insertByDateDesc (x : Reading) : List Reading → List Reading
  | [] => [x]
  | y :: ys =>
    if y.reading_date ≤ x.reading_date then x :: y :: ys
    else y :: insertByDateDesc x ys

/-- `ORDER BY reading_date DESC` (stable; SQL leaves tie order open, the
embedding fixes the insertion-sort order). -/
def sortByDateDesc : List Reading → List Reading
  | [] => []
  | x :: xs => insertByDateDesc x (sortByDateDesc xs)

/-- The spike baseline query (`anomaly_detection.py` lines 35–42): same
building and utility, a different row id, and
`reading_date >= reading.reading_date - timedelta(days=7)`.  Note there is
no upper date bound: rows dated after the reading also qualify. -/
def spikeWindow (db : DB) (r : Reading) : List Reading :=
  db.readings.filter (fun x =>
    decide (x.building_id = r.building_id ∧ x.utility_type = r.utility_type ∧
      x.id ≠ r.id ∧ r.reading_date - 7 ≤ x.reading_date))

/-- The continuous-high query (`anomaly_detection.py` lines 64–71): same
building and utility, `reading_date >= reading.reading_date - timedelta(days=3)`
and `value > threshold * 0.8` (again with no upper date bound, and without
excluding the current reading's row). -/
def continuousWindow (db : DB) (r : Reading) (threshold : ℚ) : List Reading :=
  db.readings.filter (fun x =>
    decide (x.building_id = r.building_id ∧ x.utility_type = r.utility_type ∧
      r.reading_date - 3 ≤ x.reading_date ∧ threshold * (8 / 10) < x.value))

/-- The filter of the continuous-high dedup query
(`anomaly_detection.py` lines 76–81): a pending `continuous_high` alert for
the given building+utility. -/
def isPendingCHFor (bid : ℕ) (u : UtilityType) (a : Alert) : Bool :=
  decide (a.building_id = bid ∧ a.utility_type = u ∧
    a.alert_type = AlertType.continuous_high ∧ a.status = AlertStatus.pending)

/-- The continuous-high dedup query (`anomaly_detection.py` lines 75–82):
does a pending `continuous_high` alert for this building+utility exist? -/
def pendingContinuousHigh (db : DB) (bid : ℕ) (u : UtilityType) : Bool :=
  db.alerts.any (isPendingCHFor bid u)

/-- The filter of the rule-trigger dedup query
(`anomaly_detection.py` lines 173–177): a pending `rule_trigger` alert for
the given reading. -/
def isPendingRTFor (rid : ℕ) (a : Alert) : Bool :=
  decide (a.reading_id = some rid ∧ a.alert_type = AlertType.rule_trigger ∧
    a.status = AlertStatus.pending)

/-- The rule-trigger dedup query (`anomaly_detection.py` lines 172–178):
does a pending `rule_trigger` alert for this exact reading exist? -/
def pendingRuleTriggerFor (db : DB) (rid : ℕ) : Bool :=
  db.alerts.any (isPendingRTFor rid)

/-- The threshold-breach message (`anomaly_detection.py` line 27). -/
def thresholdBreachMessage (r : Reading) (threshold : ℚ) : String :=
  pyCapitalize (utilityLabel r.utility_type) ++ " consumption (" ++ fmt2 r.value ++
    " " ++ r.unit ++ ") exceeds threshold (" ++ fmt2 threshold ++ " " ++ r.unit ++ ")"

/-- The spike message (`anomaly_detection.py` line 56).  The source
interpolates the z-score `(value − mean)/stdev` with `:.2f`; that number is
a square root and in general irrational, so this embedding leaves the
numeral out of the text (no claim concerns the spike message). -/
def spikeMessage (r : Reading) (mean : ℚ) : String :=
  "Spike detected: " ++ pyCapitalize (utilityLabel r.utility_type) ++
    " consumption (" ++ fmt2 r.value ++ " " ++ r.unit ++
    ") is standard deviations above recent average (" ++ fmt2 mean ++ " " ++ r.unit ++ ")"

/-- The continuous-high message (`anomaly_detection.py` line 89). -/
def continuousHighMessage (r : Reading) (n : ℕ) : String :=
  "Continuous high " ++ utilityLabel r.utility_type ++ " usage detected: " ++
    toString n ++ " consecutive days above 80% of threshold"

/-- The condition-kind specific `friendly_message`
(`anomaly_detection.py` lines 182–195). -/
def ruleTriggerMessage (r : Reading) (ru : AlertRule) : String :=
  let label := pyCapitalize (utilityLabel r.utility_type)
  if ru.condition_type = "threshold" then
    label ++ " reading " ++ fmt2 r.value ++ " " ++ r.unit ++
      " exceeded configured limit " ++ fmt2 ru.threshold_value ++ " " ++ r.unit ++ "."
  else if ru.condition_type = "zscore" then
    label ++ " reading " ++ fmt2 r.value ++ " " ++ r.unit ++
      " deviated significantly from recent pattern."
  else
    label ++ " usage changed too quickly compared to previous readings."

/-- The threshold-breach alert row (`anomaly_detection.py` lines 23–30). -/
def mkThresholdBreach (r : Reading) (threshold : ℚ) : Alert :=
  { id := 0
    building_id := r.building_id
    alert_type := AlertType.threshold_breach
    utility_type := r.utility_type
    severity := "high"
    message := thresholdBreachMessage r threshold
    reading_id := some r.id
    status := AlertStatus.pending }

/-- The spike alert row (`anomaly_detection.py` lines 52–59). -/
def mkSpike (r : Reading) (mean : ℚ) : Alert :=
  { id := 0
    building_id := r.building_id
    alert_type := AlertType.spike
    utility_type := r.utility_type
    severity := "medium"
    message := spikeMessage r mean
    reading_id := some r.id
    status := AlertStatus.pending }

/-- The continuous-high alert row (`anomaly_detection.py` lines 85–92). -/
def mkContinuousHigh (r : Reading) (n : ℕ) : Alert :=
  { id := 0
    building_id := r.building_id
    alert_type := AlertType.continuous_high
    utility_type := r.utility_type
    severity := "medium"
    message := continuousHighMessage r n
    reading_id := some r.id
    status := AlertStatus.pending }

/-- The dynamic-rule alert row (`anomaly_detection.py` lines 197–204);
`severity = rule.severity or "medium"`. -/
def mkRuleTrigger (r : Reading) (ru : AlertRule) : Alert :=
  { id := 0
    building_id := r.building_id
    alert_type := AlertType.rule_trigger
    utility_type := r.utility_type
    severity := pyOrStr ru.severity "medium"
    message := ruleTriggerMessage r ru
    reading_id := some r.id
    status := AlertStatus.pending }

/-- Detector 1 (`anomaly_detection.py` lines 16–32): the list of
threshold-breach alerts this call adds. -/
def tbList (r : Reading) (threshold : ℚ) : List Alert :=
  if threshold < r.value then [mkThresholdBreach r threshold] else []

/-- Detector 2 (`anomaly_detection.py` lines 34–61): the list of spike
alerts this call adds. -/
def spikeList (db : DB) (r : Reading) : List Alert :=
  let recent := spikeWindow db r
  if 3 ≤ recent.length then
    let values := recent.map (fun x => x.value)
    if zScoreExceeds r.value (mean values) (sampleVariance values) (5 / 2) then
      [mkSpike r (mean values)]
    else []
  else []

/-- Detector 3 (`anomaly_detection.py` lines 63–94): the list of
continuous-high alerts this call adds. -/
def chList (db : DB) (r : Reading) (threshold : ℚ) : List Alert :=
  let w := continuousWindow db r threshold
  if 3 ≤ w.length then
    if pendingContinuousHigh db r.building_id r.utility_type then []
    else [mkContinuousHigh r w.length]
  else []

/-- `db.query(AlertRule).filter(is_active, utility_type == reading.utility_type)`
(`anomaly_detection.py` lines 97–102). -/
def activeRules (db : DB) (r : Reading) : List AlertRule :=
  db.rules.filter (fun ru => ru.is_active && decide (ru.utility_type = r.utility_type))

/-- Scope matching (`anomaly_detection.py` lines 105–112): `building` scope
requires the rule's building to equal the reading's (a rule with no building
set never matches); `zone` scope requires the building's zone to equal the
rule's; any other scope kind (in particular `global`) always matches. -/
def ruleScopeMatches (ru : AlertRule) (r : Reading) (b : Building) : Bool :=
  if ru.scope_type = "building" then decide (ru.building_id = some r.building_id)
  else if ru.scope_type = "zone" then decide (ru.zone = b.zone)
  else true

/-- All readings for the reading's building+utility
(`anomaly_detection.py` lines 121–126 before ordering/limiting). -/
def buReadings (db : DB) (r : Reading) : List Reading :=
  db.readings.filter (fun x =>
    decide (x.building_id = r.building_id ∧ x.utility_type = r.utility_type))

/-- The zscore-rule baseline query (`anomaly_detection.py` lines 135–142):
same building+utility, a different row id,
`reading_date >= reading.reading_date - timedelta(days=window_days)`. -/
def windowReadings (db : DB) (r : Reading) (days : ℤ) : List Reading :=
  db.readings.filter (fun x =>
    decide (x.building_id = r.building_id ∧ x.utility_type = r.utility_type ∧
      x.id ≠ r.id ∧ r.reading_date - (days : ℚ) ≤ x.reading_date))

/-- The rate-of-change prior-reading query (`anomaly_detection.py`
lines 154–161) before ordering: same building+utility, different row id,
strictly earlier `reading_date`. -/
def priorReadings (db : DB) (r : Reading) : List Reading :=
  db.readings.filter (fun x =>
    decide (x.building_id = r.building_id ∧ x.utility_type = r.utility_type ∧
      x.id ≠ r.id ∧ x.reading_date < r.reading_date))

/-- Condition evaluation for one dynamic rule (`anomaly_detection.py`
lines 114–166): the value of the `triggered` flag.  An unrecognized
condition kind never triggers. -/
def ruleTriggers (db : DB) (r : Reading) (ru : AlertRule) : Bool :=
  if ru.condition_type = "threshold" then
    let n := pyOrInt ru.consecutive_count 1
    if 1 < n then
      let recent := (sortByDateDesc (buReadings db r)).take n.toNat
      decide (n ≤ (recent.length : ℤ)) && recent.all (fun x => decide (ru.threshold_value < x.value))
    else decide (ru.threshold_value < r.value)
  else if ru.condition_type = "zscore" then
    let wd := max 1 (pyOrInt ru.comparison_window_days 1)
    let recent := windowReadings db r wd
    let values := recent.map (fun x => x.value)
    decide (3 ≤ recent.length) &&
      zScoreExceeds r.value (mean values) (sampleVariance values) ru.threshold_value
  else if ru.condition_type = "rate_of_change" then
    match (sortByDateDesc (priorReadings db r)).head? with
    | some p =>
      decide (0 < p.value) &&
        decide (ru.threshold_value < (r.value - p.value) / p.value * 100)
    | none => false
  else false

/-- The dynamic-rule loop (`anomaly_detection.py` lines 104–206): one
`rule_trigger` alert per active, matching, triggering rule, skipped when a
pending `rule_trigger` alert for this reading already exists.  Alerts added
by this very call are flushed only at the end (line 209), so the dedup
query observes the pre-call alert table throughout the loop. -/
def rtList (db : DB) (r : Reading) (b : Building) : List Alert :=
  (activeRules db r).filterMap (fun ru =>
    if ruleScopeMatches ru r b then
      if ruleTriggers db r ru then
        if pendingRuleTriggerFor db r.id then none
        else some (mkRuleTrigger r ru)
      else none
    else none)

/-- `check_anomalies(db, reading)` (`anomaly_detection.py` lines 8–209):
looks up the owning building (silent no-op when absent), runs the three
static detectors then the dynamic rules, and flushes the created alert
rows. -/
def check_anomalies (db : DB) (r : Reading) : DB :=
  match firstBuilding db r.building_id with
  | none => db
  | some building =>
    let threshold := thresholdFor building r.utility_type
    { db with
        alerts := db.alerts ++
          (tbList r threshold ++ spikeList db r ++ chList db r threshold ++
            rtList db r building) }

/-- The alert rows one `check_anomalies` call adds (the suffix the call
appends to the alert table). -/
def createdAlerts (db : DB) (r : Reading) : List Alert :=
  (check_anomalies db r).alerts.drop db.alerts.length

/-! ### Structural lemmas about one `check_anomalies` call -/

@[simp] lemma check_anomalies_buildings (db : DB) (r : Reading) :
    (check_anomalies db r).buildings = db.buildings := by
  unfold check_anomalies; split <;> rfl

@[simp] lemma check_anomalies_readings (db : DB) (r : Reading) :
    (check_anomalies db r).readings = db.readings := by
  unfold check_anomalies; split <;> rfl

@[simp] lemma check_anomalies_rules (db : DB) (r : Reading) :
    (check_anomalies db r).rules = db.rules := by
  unfold check_anomalies; split <;> rfl

lemma check_anomalies_alerts (db : DB) (r : Reading) (b : Building)
    (hb : firstBuilding db r.building_id = some b) :
    (check_anomalies db r).alerts =
      db.alerts ++
        (tbList r (thresholdFor b r.utility_type) ++ spikeList db r ++
          chList db r (thresholdFor b r.utility_type) ++ rtList db r b) := by
  unfold check_anomalies; rw [hb]

lemma createdAlerts_eq (db : DB) (r : Reading) (b : Building)
    (hb : firstBuilding db r.building_id = some b) :
    createdAlerts db r =
      tbList r (thresholdFor b r.utility_type) ++ spikeList db r ++
        chList db r (thresholdFor b r.utility_type) ++ rtList db r b := by
  unfold createdAlerts
  rw [check_anomalies_alerts db r b hb, List.drop_left]

lemma mem_tbList {r : Reading} {t : ℚ} {a : Alert} (ha : a ∈ tbList r t) :
    a = mkThresholdBreach r t := by
  unfold tbList at ha
  split at ha <;> simp_all

lemma mem_spikeList {db : DB} {r : Reading} {a : Alert} (ha : a ∈ spikeList db r) :
    a = mkSpike r (mean ((spikeWindow db r).map (fun x => x.value))) := by
  simp only [spikeList] at ha
  split at ha
  · split at ha <;> simp_all
  · simp_all

lemma mem_chList {db : DB} {r : Reading} {t : ℚ} {a : Alert} (ha : a ∈ chList db r t) :
    a = mkContinuousHigh r (continuousWindow db r t).length := by
  simp only [chList] at ha
  split at ha
  · split at ha <;> simp_all
  · simp_all

lemma mem_rtList {db : DB} {r : Reading} {b : Building} {a : Alert}
    (ha : a ∈ rtList db r b) :
    ∃ ru ∈ activeRules db r,
      a = mkRuleTrigger r ru ∧ ruleScopeMatches ru r b = true ∧
        ruleTriggers db r ru = true ∧ pendingRuleTriggerFor db r.id = false := by
  unfold rtList at ha
  obtain ⟨ru, hmem, hf⟩ := List.mem_filterMap.mp ha
  refine ⟨ru, hmem, ?_⟩
  split at hf
  · split at hf
    · split at hf
      · cases hf
      · cases hf; simp_all
    · cases hf
  · cases hf

/-- Filtering the created alerts by a kind no element of the list carries. -/
lemma filter_eq_nil_of_type {l : List Alert} {T : AlertType}
    (h : ∀ a ∈ l, a.alert_type ≠ T) :
    l.filter (fun a => a.alert_type == T) = [] := by
  rw [List.filter_eq_nil_iff]
  intro a ha
  simpa using h a ha

lemma filter_type_tbList (r : Reading) (t : ℚ) :
    (tbList r t).filter (fun a => a.alert_type == AlertType.threshold_breach) =
      tbList r t := by
  rw [List.filter_eq_self]
  intro a ha
  rw [mem_tbList ha]; rfl

lemma filter_tb_spikeList (db : DB) (r : Reading) :
    (spikeList db r).filter (fun a => a.alert_type == AlertType.threshold_breach) = [] :=
  filter_eq_nil_of_type (fun a ha => by rw [mem_spikeList ha]; simp [mkSpike])

lemma filter_tb_chList (db : DB) (r : Reading) (t : ℚ) :
    (chList db r t).filter (fun a => a.alert_type == AlertType.threshold_breach) = [] :=
  filter_eq_nil_of_type (fun a ha => by rw [mem_chList ha]; simp [mkContinuousHigh])

lemma filter_tb_rtList (db : DB) (r : Reading) (b : Building) :
    (rtList db r b).filter (fun a => a.alert_type == AlertType.threshold_breach) = [] :=
  filter_eq_nil_of_type (fun a ha => by
    obtain ⟨ru, _, rfl, _⟩ := mem_rtList ha
    simp [mkRuleTrigger])

/-! ### C1: at most one pending continuous-high alert per building+utility -/

/-- The number of pending `continuous_high` alerts for a building+utility. -/
def chCount (db : DB) (bid : ℕ) (u : UtilityType) : ℕ :=
  (db.alerts.filter (isPendingCHFor bid u)).length

/-- The spec's dedup invariant: at most one pending `continuous_high` alert
per (building, utility). -/
def chInvariant (db : DB) : Prop :=
  ∀ bid u, chCount db bid u ≤ 1

lemma filter_ch_tbList (r : Reading) (t : ℚ) :
    (tbList r t).filter (fun a => a.alert_type == AlertType.continuous_high) = [] :=
  filter_eq_nil_of_type (fun a ha => by rw [mem_tbList ha]; simp [mkThresholdBreach])

lemma filter_ch_spikeList (db : DB) (r : Reading) :
    (spikeList db r).filter (fun a => a.alert_type == AlertType.continuous_high) = [] :=
  filter_eq_nil_of_type (fun a ha => by rw [mem_spikeList ha]; simp [mkSpike])

lemma filter_ch_chList (db : DB) (r : Reading) (t : ℚ) :
    (chList db r t).filter (fun a => a.alert_type == AlertType.continuous_high) =
      chList db r t := by
  rw [List.filter_eq_self]
  intro a ha
  rw [mem_chList ha]; rfl

lemma filter_ch_rtList (db : DB) (r : Reading) (b : Building) :
    (rtList db r b).filter (fun a => a.alert_type == AlertType.continuous_high) = [] :=
  filter_eq_nil_of_type (fun a ha => by
    obtain ⟨ru, _, rfl, _⟩ := mem_rtList ha
    simp [mkRuleTrigger])

lemma filter_pend_tbList (bid : ℕ) (u : UtilityType) (r : Reading) (t : ℚ) :
    (tbList r t).filter (isPendingCHFor bid u) = [] :=
  List.filter_eq_nil_iff.mpr (fun a ha => by
    rw [mem_tbList ha]; simp [isPendingCHFor, mkThresholdBreach])

lemma filter_pend_spikeList (bid : ℕ) (u : UtilityType) (db : DB) (r : Reading) :
    (spikeList db r).filter (isPendingCHFor bid u) = [] :=
  List.filter_eq_nil_iff.mpr (fun a ha => by
    rw [mem_spikeList ha]; simp [isPendingCHFor, mkSpike])

lemma filter_pend_rtList (bid : ℕ) (u : UtilityType) (db : DB) (r : Reading)
    (b : Building) :
    (rtList db r b).filter (isPendingCHFor bid u) = [] :=
  List.filter_eq_nil_iff.mpr (fun a ha => by
    obtain ⟨ru, _, rfl, _⟩ := mem_rtList ha
    simp [isPendingCHFor, mkRuleTrigger])

lemma filter_pend_chList_self (db : DB) (r : Reading) (t : ℚ) :
    (chList db r t).filter (isPendingCHFor r.building_id r.utility_type) =
      chList db r t := by
  rw [List.filter_eq_self]
  intro a ha
  rw [mem_chList ha]
  simp [isPendingCHFor, mkContinuousHigh]

lemma filter_pend_chList_ne (db : DB) (r : Reading) (t : ℚ) (bid : ℕ)
    (u : UtilityType) (h : ¬(bid = r.building_id ∧ u = r.utility_type)) :
    (chList db r t).filter (isPendingCHFor bid u) = [] :=
  List.filter_eq_nil_iff.mpr (fun a ha => by
    rw [mem_chList ha]
    simp only [isPendingCHFor, mkContinuousHigh, decide_eq_true_eq]
    rintro ⟨h1, h2, -⟩
    exact h ⟨h1.symm, h2.symm⟩)

lemma chList_length_le_one (db : DB) (r : Reading) (t : ℚ) :
    (chList db r t).length ≤ 1 := by
  simp only [chList]
  split
  · split <;> simp
  · simp

lemma chList_ne_nil_pending_false {db : DB} {r : Reading} {t : ℚ}
    (h : chList db r t ≠ []) :
    pendingContinuousHigh db r.building_id r.utility_type = false := by
  simp only [chList] at h
  split at h
  · split at h
    · exact absurd rfl h
    · rename_i hp
      simpa using hp
  · exact absurd rfl h

lemma filter_pend_of_pending_false {db : DB} {bid : ℕ} {u : UtilityType}
    (h : pendingContinuousHigh db bid u = false) :
    db.alerts.filter (isPendingCHFor bid u) = [] := by
  rw [List.filter_eq_nil_iff]
  intro a ha
  have := List.any_eq_false.mp h a ha
  simpa using this

/-- `chList` rewritten as a single conditional: the detector creates the
alert exactly when the window holds at least three qualifying readings and
no pending `continuous_high` alert for the building+utility exists. -/
lemma chList_eq_if (db : DB) (r : Reading) (t : ℚ) :
    chList db r t =
      if 3 ≤ (continuousWindow db r t).length ∧
          pendingContinuousHigh db r.building_id r.utility_type = false then
        [mkContinuousHigh r (continuousWindow db r t).length]
      else [] := by
  simp only [chList]
  by_cases h1 : 3 ≤ (continuousWindow db r t).length
  · by_cases h2 : pendingContinuousHigh db r.building_id r.utility_type
    · simp [h1, h2]
    · have h2' : pendingContinuousHigh db r.building_id r.utility_type = false := by
        simpa using h2
      simp [h1, h2']
  · simp [h1]

/-- C1: one `check_anomalies` call preserves the "at most one pending
`continuous_high` alert per (building, utility)" invariant, and it creates a
continuous-high alert (severity "medium") exactly when its 3-day window
query finds at least 3 qualifying readings and no pending `continuous_high`
alert for that building+utility already exists; once the pending alert
leaves `pending` status the dedup query no longer finds it, so a later
qualifying run creates a fresh one. -/
theorem continuous_high_dedup_invariant (db : DB) (r : Reading) (b : Building)
    (hb : firstBuilding db r.building_id = some b)
    (hinv : chInvariant db) :
    chInvariant (check_anomalies db r) ∧
    ((createdAlerts db r).filter
        (fun a => a.alert_type == AlertType.continuous_high) =
      if 3 ≤ (continuousWindow db r (thresholdFor b r.utility_type)).length ∧
          pendingContinuousHigh db r.building_id r.utility_type = false then
        [mkContinuousHigh r
          (continuousWindow db r (thresholdFor b r.utility_type)).length]
      else []) ∧
    (mkContinuousHigh r
      (continuousWindow db r (thresholdFor b r.utility_type)).length).severity =
        "medium" := by
  refine ⟨?_, ?_, rfl⟩
  · intro bid u
    unfold chCount
    rw [check_anomalies_alerts db r b hb]
    simp only [List.filter_append, List.length_append, filter_pend_tbList,
      filter_pend_spikeList, filter_pend_rtList, List.length_nil]
    by_cases hbu : bid = r.building_id ∧ u = r.utility_type
    · obtain ⟨h1, h2⟩ := hbu
      subst h1; subst h2
      rw [filter_pend_chList_self]
      by_cases hch : chList db r (thresholdFor b r.utility_type) = []
      · rw [hch]
        simpa using hinv r.building_id r.utility_type
      · have hpend := chList_ne_nil_pending_false hch
        have hold := filter_pend_of_pending_false hpend
        have hlen := chList_length_le_one db r (thresholdFor b r.utility_type)
        rw [hold]
        simpa using hlen
    · rw [filter_pend_chList_ne db r _ bid u hbu]
      simpa using hinv bid u
  · rw [createdAlerts_eq db r b hb]
    simp only [List.filter_append, filter_ch_tbList, filter_ch_spikeList,
      filter_ch_chList, filter_ch_rtList, List.nil_append, List.append_nil]
    exact chList_eq_if db r _

/-- Building for the C1 witness. -/
def bC1 : Building := ⟨3, 100, 500, none⟩

/-- Store for the C1 witness: three readings above 80% of the threshold
within the trailing 3 days, no existing alerts. -/
def dbC1 : DB :=
  ⟨[bC1],
   [⟨1, 3, UtilityType.water, 90, "liters", -2⟩,
    ⟨2, 3, UtilityType.water, 95, "liters", -1⟩,
    ⟨3, 3, UtilityType.water, 99, "liters", 0⟩], [], []⟩

/-- The newest reading of `dbC1`, the one being evaluated. -/
def rdgC1 : Reading := ⟨3, 3, UtilityType.water, 99, "liters", 0⟩

theorem continuous_high_dedup_invariant_witness :
    firstBuilding dbC1 rdgC1.building_id = some bC1 ∧
      (createdAlerts dbC1 rdgC1).filter
          (fun a => a.alert_type == AlertType.continuous_high) =
        [mkContinuousHigh rdgC1 3] := by
  have h := continuous_high_dedup_invariant dbC1 rdgC1 bC1 (by decide)
    (fun bid u => by simp [chCount, dbC1])
  refine ⟨by decide, ?_⟩
  have h2 := h.2.1
  rw [if_pos (by with_unfolding_all decide)] at h2
  have hlen :
      (continuousWindow dbC1 rdgC1 (thresholdFor bC1 rdgC1.utility_type)).length = 3 :=
    by with_unfolding_all decide
  rw [hlen] at h2
  exact h2

/-! ### C3: the spike detector -/

lemma filter_spike_tbList (r : Reading) (t : ℚ) :
    (tbList r t).filter (fun a => a.alert_type == AlertType.spike) = [] :=
  filter_eq_nil_of_type (fun a ha => by rw [mem_tbList ha]; simp [mkThresholdBreach])

lemma filter_spike_spikeList (db : DB) (r : Reading) :
    (spikeList db r).filter (fun a => a.alert_type == AlertType.spike) =
      spikeList db r := by
  rw [List.filter_eq_self]
  intro a ha
  rw [mem_spikeList ha]; rfl

lemma filter_spike_chList (db : DB) (r : Reading) (t : ℚ) :
    (chList db r t).filter (fun a => a.alert_type == AlertType.spike) = [] :=
  filter_eq_nil_of_type (fun a ha => by rw [mem_chList ha]; simp [mkContinuousHigh])

lemma filter_spike_rtList (db : DB) (r : Reading) (b : Building) :
    (rtList db r b).filter (fun a => a.alert_type == AlertType.spike) = [] :=
  filter_eq_nil_of_type (fun a ha => by
    obtain ⟨ru, _, rfl, _⟩ := mem_rtList ha
    simp [mkRuleTrigger])

/-- `spikeList` rewritten as a single conditional. -/
lemma spikeList_eq_if (db : DB) (r : Reading) :
    spikeList db r =
      if 3 ≤ (spikeWindow db r).length ∧
          zScoreExceeds r.value (mean ((spikeWindow db r).map (fun x => x.value)))
            (sampleVariance ((spikeWindow db r).map (fun x => x.value))) (5 / 2) =
              true then
        [mkSpike r (mean ((spikeWindow db r).map (fun x => x.value)))]
      else [] := by
  simp only [spikeList]
  by_cases h1 : 3 ≤ (spikeWindow db r).length
  · by_cases h2 :
      zScoreExceeds r.value (mean ((spikeWindow db r).map (fun x => x.value)))
        (sampleVariance ((spikeWindow db r).map (fun x => x.value))) (5 / 2) = true
    · simp [h1, h2]
    · simp [h1, h2]
  · simp [h1]

/-- C3 (amended): the spike detector's baseline is the readings for the same
building+utility other than the reading itself whose date is at least
7 days before the reading's date — with **no upper bound**, so readings
dated after the reading also count (`spikeWindow`).  It creates one spike
alert (severity "medium") exactly when that baseline holds at least three
readings, their sample variance is positive and the z-score of the value
against the baseline exceeds 2.5 (`zScoreExceeds`, the square-root-free
encoding of `σ > 0 ∧ (value − mean)/σ > 2.5`); no dedup is applied. -/
theorem spike_exact_no_upper_bound (db : DB) (r : Reading) (b : Building)
    (hb : firstBuilding db r.building_id = some b) :
    ((createdAlerts db r).filter (fun a => a.alert_type == AlertType.spike) =
      if 3 ≤ (spikeWindow db r).length ∧
          zScoreExceeds r.value (mean ((spikeWindow db r).map (fun x => x.value)))
            (sampleVariance ((spikeWindow db r).map (fun x => x.value))) (5 / 2) =
              true then
        [mkSpike r (mean ((spikeWindow db r).map (fun x => x.value)))]
      else []) ∧
    (mkSpike r (mean ((spikeWindow db r).map (fun x => x.value)))).severity =
      "medium" := by
  refine ⟨?_, rfl⟩
  rw [createdAlerts_eq db r b hb]
  simp only [List.filter_append, filter_spike_tbList, filter_spike_spikeList,
    filter_spike_chList, filter_spike_rtList, List.nil_append, List.append_nil]
  exact spikeList_eq_if db r

/-- The spike window as the claim words it: readings for the same
building+utility, other than the reading itself, **within the trailing
7 days before the reading's date** — i.e. with an upper bound at the
reading's date, unlike the source query `spikeWindow`. -/
def claimSpikeWindow (db : DB) (r : Reading) : List Reading :=
  db.readings.filter (fun x =>
    decide (x.building_id = r.building_id ∧ x.utility_type = r.utility_type ∧
      x.id ≠ r.id ∧ r.reading_date - 7 ≤ x.reading_date ∧
      x.reading_date ≤ r.reading_date))

/-- Building for the C3 counterexample. -/
def bC3 : Building := ⟨1, 1000, 500, none⟩

/-- Store for the C3 counterexample: three readings dated 10 days **after**
the evaluated reading (outside any trailing window before it) plus the
evaluated reading itself. -/
def dbC3 : DB :=
  ⟨[bC3],
   [⟨1, 1, UtilityType.water, 1, "liters", 10⟩,
    ⟨2, 1, UtilityType.water, 2, "liters", 10⟩,
    ⟨3, 1, UtilityType.water, 3, "liters", 10⟩,
    ⟨4, 1, UtilityType.water, 100, "liters", 0⟩], [], []⟩

/-- The evaluated reading of `dbC3`. -/
def rdgC3 : Reading := ⟨4, 1, UtilityType.water, 100, "liters", 0⟩

/-- C3 counterexample: on `dbC3` the code creates a spike alert although
the trailing 7-day window before the reading's date contains no readings at
all — the three baseline readings it used are dated 10 days later.  So the
claim's "considers exactly the readings within the trailing 7 days before
the reading's date" characterisation of the spike baseline is false. -/
theorem spike_trailing_window_counterexample :
    0 < ((createdAlerts dbC3 rdgC3).filter
          (fun a => a.alert_type == AlertType.spike)).length ∧
      (claimSpikeWindow dbC3 rdgC3).length < 3 := by
  constructor
  · with_unfolding_all decide
  · with_unfolding_all decide

theorem spike_exact_no_upper_bound_witness :
    firstBuilding dbC3 rdgC3.building_id = some bC3 ∧
      (createdAlerts dbC3 rdgC3).filter (fun a => a.alert_type == AlertType.spike) =
        [mkSpike rdgC3 2] := by
  have h := spike_exact_no_upper_bound dbC3 rdgC3 bC3 (by decide)
  refine ⟨by decide, ?_⟩
  have h1 := h.1
  rw [if_pos (by with_unfolding_all decide)] at h1
  have hm : mean ((spikeWindow dbC3 rdgC3).map (fun x => x.value)) = 2 := by
    with_unfolding_all decide
  rw [hm] at h1
  exact h1

/-! ### C4: dynamic threshold rules with a consecutive-count requirement -/

/-- C4: for a `threshold`-condition rule, if `consecutive_count > 1` the
rule triggers exactly when the `N` most-recent readings for the
building+utility (newest first, limited to `N`) number at least `N` and all
strictly exceed the rule's threshold value — the current reading's value
alone cannot trigger it; if `consecutive_count ≤ 1` it triggers exactly
when the current reading's value strictly exceeds the threshold value. -/
theorem rule_threshold_consecutive_spec (db : DB) (r : Reading) (ru : AlertRule)
    (hcond : ru.condition_type = "threshold") :
    (1 < pyOrInt ru.consecutive_count 1 →
      (ruleTriggers db r ru = true ↔
        (pyOrInt ru.consecutive_count 1 ≤
            ((((sortByDateDesc (buReadings db r)).take
              (pyOrInt ru.consecutive_count 1).toNat).length : ℕ) : ℤ) ∧
          ∀ x ∈ (sortByDateDesc (buReadings db r)).take
              (pyOrInt ru.consecutive_count 1).toNat,
            ru.threshold_value < x.value))) ∧
    (pyOrInt ru.consecutive_count 1 ≤ 1 →
      (ruleTriggers db r ru = true ↔ ru.threshold_value < r.value)) := by
  unfold ruleTriggers
  rw [hcond, if_pos rfl]
  constructor
  · intro hn
    rw [if_pos hn]
    simp [List.all_eq_true]
  · intro hn
    rw [if_neg (by omega)]
    simp

/-- Rule for the C4 witness: global, water, threshold 10,
`consecutive_count = 3`. -/
def ruC4 : AlertRule :=
  ⟨1, "three in a row", true, "global", none, none, UtilityType.water,
   "threshold", 10, none, some 3, some "high"⟩

/-- Store for the C4 witness: three readings all above the rule threshold. -/
def dbC4 : DB :=
  ⟨[⟨1, 1000, 500, none⟩],
   [⟨1, 1, UtilityType.water, 11, "liters", 0⟩,
    ⟨2, 1, UtilityType.water, 12, "liters", 1⟩,
    ⟨3, 1, UtilityType.water, 13, "liters", 2⟩], [], [ruC4]⟩

/-- The newest reading of `dbC4`. -/
def rdgC4 : Reading := ⟨3, 1, UtilityType.water, 13, "liters", 2⟩

theorem rule_threshold_consecutive_spec_witness :
    ruC4.condition_type = "threshold" ∧ 1 < pyOrInt ruC4.consecutive_count 1 ∧
      ruleTriggers dbC4 rdgC4 ruC4 = true :=
  ⟨rfl, by with_unfolding_all decide,
    ((rule_threshold_consecutive_spec dbC4 rdgC4 ruC4 rfl).1
        (by with_unfolding_all decide)).mpr
      (by with_unfolding_all decide)⟩

/-! ### C5: dynamic rate-of-change rules -/

/-- C5: for a `rate_of_change`-condition rule, let `prev` be the most-recent
reading for the same building+utility with strictly earlier timestamp; the
rule triggers exactly when `prev` exists, `prev.value > 0`, and the
percentage change `(value − prev)/prev · 100` strictly exceeds the rule's
threshold value; when no prior reading exists it never triggers. -/
theorem rule_rate_of_change_spec (db : DB) (r : Reading) (ru : AlertRule)
    (hcond : ru.condition_type = "rate_of_change") :
    (∀ p, (sortByDateDesc (priorReadings db r)).head? = some p →
      (ruleTriggers db r ru = true ↔
        (0 < p.value ∧ ru.threshold_value < (r.value - p.value) / p.value * 100))) ∧
    ((sortByDateDesc (priorReadings db r)).head? = none →
      ruleTriggers db r ru = false) := by
  unfold ruleTriggers
  rw [hcond, if_neg (by decide), if_neg (by decide), if_pos rfl]
  constructor
  · intro p hp
    rw [hp]
    simp
  · intro hp
    rw [hp]

/-- Rule for the C5 witness: rate-of-change with threshold 20 (percent). -/
def ruC5 : AlertRule :=
  ⟨2, "fast change", true, "global", none, none, UtilityType.water,
   "rate_of_change", 20, none, none, none⟩

/-- The claim's prior reading: value 100 at date 0. -/
def prevC5 : Reading := ⟨1, 1, UtilityType.water, 100, "liters", 0⟩

/-- Store where the current value is 125 (a 25% increase). -/
def dbC5a : DB :=
  ⟨[⟨1, 1000, 500, none⟩],
   [prevC5, ⟨2, 1, UtilityType.water, 125, "liters", 1⟩], [], [ruC5]⟩

/-- The current reading of `dbC5a`. -/
def rdgC5a : Reading := ⟨2, 1, UtilityType.water, 125, "liters", 1⟩

/-- Store where the current value is 115 (a 15% increase). -/
def dbC5b : DB :=
  ⟨[⟨1, 1000, 500, none⟩],
   [prevC5, ⟨2, 1, UtilityType.water, 115, "liters", 1⟩], [], [ruC5]⟩

/-- The current reading of `dbC5b`. -/
def rdgC5b : Reading := ⟨2, 1, UtilityType.water, 115, "liters", 1⟩

/-- The zero-valued prior reading. -/
def prevC5z : Reading := ⟨1, 1, UtilityType.water, 0, "liters", 0⟩

/-- Store whose prior reading has value 0 (the guarded case). -/
def dbC5c : DB :=
  ⟨[⟨1, 1000, 500, none⟩],
   [prevC5z, ⟨2, 1, UtilityType.water, 125, "liters", 1⟩], [], [ruC5]⟩

/-- The current reading of `dbC5c`. -/
def rdgC5c : Reading := ⟨2, 1, UtilityType.water, 125, "liters", 1⟩

theorem rule_rate_of_change_spec_witness :
    ruleTriggers dbC5a rdgC5a ruC5 = true ∧
      ruleTriggers dbC5b rdgC5b ruC5 = false ∧
      ruleTriggers dbC5c rdgC5c ruC5 = false := by
  refine ⟨?_, ?_, ?_⟩
  · exact ((rule_rate_of_change_spec dbC5a rdgC5a ruC5 rfl).1 prevC5
      (by with_unfolding_all decide)).mpr (by with_unfolding_all decide)
  · have hiff := (rule_rate_of_change_spec dbC5b rdgC5b ruC5 rfl).1 prevC5
      (by with_unfolding_all decide)
    exact Bool.eq_false_iff.mpr
      (fun htr => absurd (hiff.mp htr) (by with_unfolding_all decide))
  · have hiff := (rule_rate_of_change_spec dbC5c rdgC5c ruC5 rfl).1 prevC5z
      (by with_unfolding_all decide)
    exact Bool.eq_false_iff.mpr
      (fun htr => absurd (hiff.mp htr) (by with_unfolding_all decide))

/-! ### C6: one rule-trigger alert per triggering rule, dedup per reading -/

/-- The number of pending `rule_trigger` alerts referencing a reading. -/
def rtCount (db : DB) (rid : ℕ) : ℕ :=
  (db.alerts.filter (isPendingRTFor rid)).length

lemma filter_rtpend_tbList (rid : ℕ) (r : Reading) (t : ℚ) :
    (tbList r t).filter (isPendingRTFor rid) = [] :=
  List.filter_eq_nil_iff.mpr (fun a ha => by
    rw [mem_tbList ha]; simp [isPendingRTFor, mkThresholdBreach])

lemma filter_rtpend_spikeList (rid : ℕ) (db : DB) (r : Reading) :
    (spikeList db r).filter (isPendingRTFor rid) = [] :=
  List.filter_eq_nil_iff.mpr (fun a ha => by
    rw [mem_spikeList ha]; simp [isPendingRTFor, mkSpike])

lemma filter_rtpend_chList (rid : ℕ) (db : DB) (r : Reading) (t : ℚ) :
    (chList db r t).filter (isPendingRTFor rid) = [] :=
  List.filter_eq_nil_iff.mpr (fun a ha => by
    rw [mem_chList ha]; simp [isPendingRTFor, mkContinuousHigh])

lemma filter_rtpend_rtList_self (db : DB) (r : Reading) (b : Building) :
    (rtList db r b).filter (isPendingRTFor r.id) = rtList db r b := by
  rw [List.filter_eq_self]
  intro a ha
  obtain ⟨ru, _, rfl, _⟩ := mem_rtList ha
  simp [isPendingRTFor, mkRuleTrigger]

/-- Once a pending `rule_trigger` alert for the reading is visible, the
dedup check suppresses every rule's alert creation. -/
lemma rtList_eq_nil_of_pending {db : DB} {r : Reading} (b : Building)
    (h : pendingRuleTriggerFor db r.id = true) : rtList db r b = [] := by
  unfold rtList
  rw [List.filterMap_eq_nil_iff]
  intro ru _
  rw [h]
  simp

lemma filter_rtpend_of_pending_false {db : DB} {rid : ℕ}
    (h : pendingRuleTriggerFor db rid = false) :
    db.alerts.filter (isPendingRTFor rid) = [] := by
  rw [List.filter_eq_nil_iff]
  intro a ha
  have := List.any_eq_false.mp h a ha
  simpa using this

/-- C6: when exactly two distinct active rules match the reading's utility,
both pass the scope filter and both evaluate true, and no pending
`rule_trigger` alert for this reading pre-exists, one `check_anomalies`
call creates exactly one `rule_trigger` alert per rule (two in total;
dedup is per reading against pre-existing pending alerts, not per rule);
and a second call on the same reading creates no further `rule_trigger`
alerts while those remain pending. -/
theorem rule_trigger_per_rule_and_idempotent (db : DB) (r : Reading)
    (b : Building) (ru₁ ru₂ : AlertRule)
    (hb : firstBuilding db r.building_id = some b)
    (hact : activeRules db r = [ru₁, ru₂])
    (_hne : ru₁ ≠ ru₂)
    (hs₁ : ruleScopeMatches ru₁ r b = true)
    (hs₂ : ruleScopeMatches ru₂ r b = true)
    (ht₁ : ruleTriggers db r ru₁ = true)
    (ht₂ : ruleTriggers db r ru₂ = true)
    (hnp : pendingRuleTriggerFor db r.id = false) :
    rtCount (check_anomalies db r) r.id = 2 ∧
      rtCount (check_anomalies (check_anomalies db r) r) r.id = 2 := by
  have hrt : rtList db r b = [mkRuleTrigger r ru₁, mkRuleTrigger r ru₂] := by
    unfold rtList
    rw [hact]
    simp [hs₁, hs₂, ht₁, ht₂, hnp]
  have hcount1 : rtCount (check_anomalies db r) r.id = 2 := by
    unfold rtCount
    rw [check_anomalies_alerts db r b hb]
    simp only [List.filter_append, List.length_append, filter_rtpend_tbList,
      filter_rtpend_spikeList, filter_rtpend_chList, filter_rtpend_rtList_self,
      filter_rtpend_of_pending_false hnp, List.length_nil, hrt]
    have hmk : ∀ ru, isPendingRTFor r.id (mkRuleTrigger r ru) = true := by
      intro ru; simp [isPendingRTFor, mkRuleTrigger]
    simp [List.filter_cons, hmk]
  refine ⟨hcount1, ?_⟩
  have hb' : firstBuilding (check_anomalies db r) r.building_id = some b := by
    unfold firstBuilding
    rw [check_anomalies_buildings]
    exact hb
  have hpend' : pendingRuleTriggerFor (check_anomalies db r) r.id = true := by
    unfold pendingRuleTriggerFor
    refine List.any_eq_true.mpr ⟨mkRuleTrigger r ru₁, ?_, ?_⟩
    · rw [check_anomalies_alerts db r b hb]
      refine List.mem_append.mpr (Or.inr ?_)
      refine List.mem_append.mpr (Or.inr ?_)
      rw [hrt]
      exact List.mem_cons_self _ _
    · simp [isPendingRTFor, mkRuleTrigger]
  have hrt' : rtList (check_anomalies db r) r b = [] :=
    rtList_eq_nil_of_pending b hpend'
  unfold rtCount
  rw [check_anomalies_alerts (check_anomalies db r) r b hb']
  simp only [List.filter_append, List.length_append, filter_rtpend_tbList,
    filter_rtpend_spikeList, filter_rtpend_chList, hrt', List.filter_nil,
    List.length_nil]
  have : ((check_anomalies db r).alerts.filter (isPendingRTFor r.id)).length = 2 :=
    hcount1
  omega

/-- First rule of the C6 witness: `value > 10`. -/
def ruC6a : AlertRule :=
  ⟨1, "limit ten", true, "global", none, none, UtilityType.water,
   "threshold", 10, none, none, none⟩

/-- Second rule of the C6 witness: `value > 20`. -/
def ruC6b : AlertRule :=
  ⟨2, "limit twenty", true, "global", none, none, UtilityType.water,
   "threshold", 20, none, none, none⟩

/-- Store for the C6 witness: one reading of value 30, both rules active. -/
def dbC6 : DB :=
  ⟨[⟨1, 1000, 500, none⟩],
   [⟨1, 1, UtilityType.water, 30, "liters", 0⟩], [], [ruC6a, ruC6b]⟩

/-- The reading of `dbC6`. -/
def rdgC6 : Reading := ⟨1, 1, UtilityType.water, 30, "liters", 0⟩

theorem rule_trigger_per_rule_and_idempotent_witness :
    rtCount (check_anomalies dbC6 rdgC6) rdgC6.id = 2 ∧
      rtCount (check_anomalies (check_anomalies dbC6 rdgC6) rdgC6) rdgC6.id = 2 :=
  rule_trigger_per_rule_and_idempotent dbC6 rdgC6 ⟨1, 1000, 500, none⟩ ruC6a ruC6b
    (by decide) (by with_unfolding_all decide) (by decide) (by decide) (by decide)
    (by with_unfolding_all decide) (by with_unfolding_all decide) (by decide)

/-! ### C7: missing building is a silent no-op -/

/-- C7: for a reading whose `building_id` matches no building,
`check_anomalies` returns leaving the whole database state unchanged. -/
theorem missing_building_noop (db : DB) (r : Reading)
    (h : firstBuilding db r.building_id = none) :
    check_anomalies db r = db := by
  unfold check_anomalies; rw [h]

/-- Concrete instance for `missing_building_noop`: an empty store. -/
def dbEmpty : DB := ⟨[], [], [], []⟩

/-- A sample reading used by witnesses. -/
def rdg0 : Reading := ⟨1, 1, UtilityType.water, 10, "liters", 0⟩

theorem missing_building_noop_witness :
    firstBuilding dbEmpty rdg0.building_id = none ∧
      check_anomalies dbEmpty rdg0 = dbEmpty :=
  ⟨by decide, missing_building_noop dbEmpty rdg0 (by decide)⟩

/-! ### C2: threshold breach fires exactly on strict exceedance, no dedup -/

/-- C2: a `threshold_breach` alert (severity "high", message embedding the
value, unit and threshold, referencing the reading) is created exactly when
the reading's value strictly exceeds the building's per-utility threshold;
at or below the threshold this detector creates nothing; no dedup is
applied, so each call creates its own alert for a qualifying reading. -/
theorem threshold_breach_exact (db : DB) (r : Reading) (b : Building)
    (hb : firstBuilding db r.building_id = some b) :
    ((createdAlerts db r).filter
        (fun a => a.alert_type == AlertType.threshold_breach) =
      if thresholdFor b r.utility_type < r.value then
        [mkThresholdBreach r (thresholdFor b r.utility_type)]
      else []) ∧
    (mkThresholdBreach r (thresholdFor b r.utility_type)).severity = "high" ∧
    (mkThresholdBreach r (thresholdFor b r.utility_type)).message =
      pyCapitalize (utilityLabel r.utility_type) ++ " consumption (" ++
        fmt2 r.value ++ " " ++ r.unit ++ ") exceeds threshold (" ++
        fmt2 (thresholdFor b r.utility_type) ++ " " ++ r.unit ++ ")" ∧
    (mkThresholdBreach r (thresholdFor b r.utility_type)).reading_id = some r.id := by
  refine ⟨?_, rfl, rfl, rfl⟩
  rw [createdAlerts_eq db r b hb]
  simp only [List.filter_append, filter_type_tbList, filter_tb_spikeList,
    filter_tb_chList, filter_tb_rtList, List.append_nil]
  unfold tbList; split <;> rfl

/-- Store for the C2 witness: one building, one over-threshold reading. -/
def dbC2 : DB :=
  ⟨[⟨1, 50, 500, none⟩], [⟨1, 1, UtilityType.water, 60, "liters", 0⟩], [], []⟩

/-- The over-threshold reading of `dbC2`. -/
def rdgC2 : Reading := ⟨1, 1, UtilityType.water, 60, "liters", 0⟩

theorem threshold_breach_exact_witness :
    firstBuilding dbC2 rdgC2.building_id = some ⟨1, 50, 500, none⟩ ∧
      (createdAlerts dbC2 rdgC2).filter
          (fun a => a.alert_type == AlertType.threshold_breach) =
        [mkThresholdBreach rdgC2 50] := by
  have h := threshold_breach_exact dbC2 rdgC2 ⟨1, 50, 500, none⟩ (by decide)
  refine ⟨by decide, ?_⟩
  have h1 := h.1
  rw [if_pos (by decide)] at h1
  exact h1

/-! ### C8: the persisted data model versus the engine's imports -/

/-- The member values of the `AlertType` enum exactly as `models.py`
lines 30–33 define them — there is no `rule_trigger` member. -/
def modelsAlertTypeValues : List String :=
  ["spike", "threshold_breach", "continuous_high"]

/-- The complete list of top-level class names `models.py` defines (enums
and SQLAlchemy models, in source order) — there is no `AlertRule` class. -/
def modelsPyClasses : List String :=
  ["UserRole", "UtilityType", "ZoneCategory", "AlertStatus", "AlertType",
   "User", "Building", "UtilityReading", "Alert"]

/-- The names `anomaly_detection.py` line 6 imports from `app.models`. -/
def anomalyDetectionModelImports : List String :=
  ["UtilityReading", "Alert", "Building", "AlertType", "AlertStatus",
   "UtilityType", "AlertRule"]

/-- C8 (code bug): the engine imports `AlertRule` from `app.models`, but
`models.py` defines no `AlertRule` class, and its `AlertType` enum has no
`rule_trigger` member even though the engine references
`AlertType.RULE_TRIGGER` — so the persisted data model does not define the
alert kind and record type the claim (and the engine) requires, and loading
the module `app.anomaly_detection` (or `app.routers.alerts`) fails. -/
theorem models_missing_rule_trigger_and_alert_rule :
    "AlertRule" ∈ anomalyDetectionModelImports ∧
      "AlertRule" ∉ modelsPyClasses ∧
      "rule_trigger" ∉ modelsAlertTypeValues := by
  decide

/-! ### C9: negative reading values at the ingestion collaborators -/

/-- `schemas.py` `ReadingCreate` (lines 100–108): a plain record — pydantic
imposes **no** lower bound on `value`. -/
structure ReadingCreate where
  building_id : ℕ
  utility_type : UtilityType
  value : ℚ
  reading_date : ℚ
  notes : Option String
deriving DecidableEq, Repr

/-- `parse_import_value` (`ingestion.py` lines 39–46) after a successful
numeric conversion (the raw cell is modelled as the parsed number):
negative values are rejected with `ValueError("value must be >= 0")`. -/
def parse_import_value (v : ℚ) : Except String ℚ :=
  if v < 0 then Except.error "value must be >= 0" else Except.ok v

/-- `create_reading_from_payload` (`ingestion.py` lines 84–110): 404 when
the payload's building is missing; otherwise inserts a reading carrying the
payload's value unchanged (unit derived from the utility kind), flushes,
and runs `check_anomalies` in the same transaction.  `newId` is the row id
the store assigns at flush; `recorded_by`/`notes` bookkeeping is dropped
because the engine model's `Reading` does not carry it.  Note there is no
check on the sign of the value. -/
def create_reading_from_payload (db : DB) (p : ReadingCreate) (newId : ℕ) :
    Except ℕ (DB × Reading) :=
  match firstBuilding db p.building_id with
  | none => Except.error 404
  | some _ =>
    let unit := if p.utility_type = UtilityType.water then "liters" else "kWh"
    let reading : Reading :=
      { id := newId, building_id := p.building_id, utility_type := p.utility_type,
        value := p.value, unit := unit, reading_date := p.reading_date }
    let db1 : DB := { db with readings := db.readings ++ [reading] }
    Except.ok (check_anomalies db1 reading, reading)

/-- Store for the C9 counterexample: one building, nothing else. -/
def dbC9 : DB := ⟨[⟨1, 100, 50, none⟩], [], [], []⟩

/-- A manual-entry payload with a negative value. -/
def payloadC9 : ReadingCreate := ⟨1, UtilityType.water, -5, 0, none⟩

/-- C9 counterexample: the manual-entry creation path accepts a payload
with value −5 and persists the reading — creation is not rejected, so the
claim that every ingestion collaborator rejects negative values is false. -/
theorem negative_value_accepted_counterexample :
    ∃ db' rd, create_reading_from_payload dbC9 payloadC9 10 = Except.ok (db', rd) ∧
      rd.value < 0 ∧ rd ∈ db'.readings := by
  refine ⟨_, _, rfl, ?_, ?_⟩
  · with_unfolding_all decide
  · with_unfolding_all decide

/-- C9 (amended): only the file-import value parser enforces the
nonnegativity of reading values — it errors exactly on negative input —
while the manual-entry creation path persists the payload's value
unconditionally (negative values included) whenever the building exists. -/
theorem negative_value_validation_amended :
    (∀ v : ℚ, v < 0 → parse_import_value v = Except.error "value must be >= 0") ∧
    (∀ v : ℚ, 0 ≤ v → parse_import_value v = Except.ok v) ∧
    (∀ (db : DB) (p : ReadingCreate) (nid : ℕ) (b : Building),
      firstBuilding db p.building_id = some b →
      ∃ db' rd, create_reading_from_payload db p nid = Except.ok (db', rd) ∧
        rd.value = p.value ∧ rd ∈ db'.readings) := by
  refine ⟨?_, ?_, ?_⟩
  · intro v hv
    unfold parse_import_value
    rw [if_pos hv]
  · intro v hv
    unfold parse_import_value
    rw [if_neg (not_lt.mpr hv)]
  · intro db p nid b hb
    unfold create_reading_from_payload
    rw [hb]
    refine ⟨_, _, rfl, rfl, ?_⟩
    rw [check_anomalies_readings]
    simp

theorem negative_value_validation_amended_witness :
    parse_import_value (-3) = Except.error "value must be >= 0" ∧
      parse_import_value 7 = Except.ok 7 ∧
      (∃ db' rd, create_reading_from_payload dbC9 payloadC9 10 = Except.ok (db', rd) ∧
        rd.value = payloadC9.value ∧ rd ∈ db'.readings) :=
  ⟨negative_value_validation_amended.1 (-3) (by norm_num),
   negative_value_validation_amended.2.1 7 (by norm_num),
   negative_value_validation_amended.2.2 dbC9 payloadC9 10 ⟨1, 100, 50, none⟩
     (by decide)⟩

/-! ### C10: operator transitions on alerts -/

/-- Mutating the first element a predicate matches (the row SQLAlchemy's
`first()` returned), leaving the rest unchanged. -/
def updateFirst (p : Alert → Bool) (f : Alert → Alert) : List Alert → List Alert
  | [] => []
  | x :: xs => if p x then f x :: xs else x :: updateFirst p f xs

/-- `db.query(Alert).filter(Alert.id == alert_id).first()`. -/
def getAlert (db : DB) (aid : ℕ) : Option Alert :=
  db.alerts.find? (fun a => a.id == aid)

/-- `if alert_update.resolution_notes:` (`alerts.py` lines 184–185) — the
notes are stored only when truthy (neither `None` nor empty). -/
def pyNotesUpdate (notes : Option String) (old : Option String) : Option String :=
  match notes with
  | some s => if s = "" then old else some s
  | none => old

/-- `acknowledge_alert` (`alerts.py` lines 143–166): 404 when the alert is
missing; 400 — leaving the row untouched — when its status is `resolved`;
otherwise sets status `acknowledged` and the acknowledger audit fields and
commits.  Errors are the HTTP status codes raised. -/
def acknowledge_alert (db : DB) (aid uid : ℕ) (now : ℚ) : Except ℕ DB :=
  match getAlert db aid with
  | none => Except.error 404
  | some a =>
    if a.status = AlertStatus.resolved then Except.error 400
    else
      Except.ok { db with
        alerts := updateFirst (fun x => x.id == aid)
          (fun x =>
            { x with status := AlertStatus.acknowledged,
                     acknowledged_by := some uid,
                     acknowledged_at := some now }) db.alerts }

/-- `resolve_alert` (`alerts.py` lines 169–192): 404 when the alert is
missing; otherwise — from **any** current status — sets status `resolved`,
the resolver audit fields and (when truthy) the resolution notes. -/
def resolve_alert (db : DB) (aid uid : ℕ) (notes : Option String) (now : ℚ) :
    Except ℕ DB :=
  match getAlert db aid with
  | none => Except.error 404
  | some _ =>
    Except.ok { db with
      alerts := updateFirst (fun x => x.id == aid)
        (fun x =>
          { x with status := AlertStatus.resolved,
                   resolved_by := some uid,
                   resolved_at := some now,
                   resolution_notes := pyNotesUpdate notes x.resolution_notes })
        db.alerts }

lemma find?_updateFirst (l : List Alert) (aid : ℕ) (f : Alert → Alert) (a : Alert)
    (hf : ∀ x, (f x).id = x.id)
    (ha : l.find? (fun x => x.id == aid) = some a) :
    (updateFirst (fun x => x.id == aid) f l).find? (fun x => x.id == aid) =
      some (f a) := by
  induction l with
  | nil => simp at ha
  | cons x xs ih =>
    unfold updateFirst
    by_cases hx : (x.id == aid) = true
    · have hfind : (x :: xs).find? (fun y : Alert => y.id == aid) = some x :=
        List.find?_cons_of_pos xs (by exact hx)
      rw [hfind] at ha
      cases ha
      rw [if_pos hx]
      exact List.find?_cons_of_pos xs (by rw [hf]; exact hx)
    · have hfind : (x :: xs).find? (fun y : Alert => y.id == aid) =
          xs.find? (fun y : Alert => y.id == aid) :=
        List.find?_cons_of_neg xs (by exact hx)
      rw [hfind] at ha
      rw [if_neg hx]
      have h2 : (x :: updateFirst (fun y : Alert => y.id == aid) f xs).find?
            (fun y : Alert => y.id == aid) =
          (updateFirst (fun y : Alert => y.id == aid) f xs).find?
            (fun y : Alert => y.id == aid) :=
        List.find?_cons_of_neg _ (by exact hx)
      rw [h2]
      exact ih ha

/-- C10: the operator interface is asymmetric — acknowledging a resolved
alert fails with HTTP 400 and changes nothing, acknowledging any
non-resolved alert sets status `acknowledged` with acknowledger and
timestamp, while resolving succeeds from any current status and sets
status `resolved` with resolver and timestamp; hence a resolved alert
never transitions back to `acknowledged`. -/
theorem alert_status_transitions (db : DB) (aid uid : ℕ) (now : ℚ)
    (notes : Option String) (a : Alert)
    (ha : getAlert db aid = some a) :
    (a.status = AlertStatus.resolved →
      acknowledge_alert db aid uid now = Except.error 400) ∧
    (a.status ≠ AlertStatus.resolved →
      ∃ db', acknowledge_alert db aid uid now = Except.ok db' ∧
        getAlert db' aid =
          some { a with status := AlertStatus.acknowledged,
                        acknowledged_by := some uid,
                        acknowledged_at := some now }) ∧
    (∃ db', resolve_alert db aid uid notes now = Except.ok db' ∧
      ∃ a', getAlert db' aid = some a' ∧ a'.status = AlertStatus.resolved ∧
        a'.resolved_by = some uid ∧ a'.resolved_at = some now) := by
  refine ⟨?_, ?_, ?_⟩
  · intro hres
    unfold acknowledge_alert
    rw [ha]
    dsimp only
    rw [if_pos hres]
  · intro hres
    unfold acknowledge_alert
    rw [ha]
    dsimp only
    rw [if_neg hres]
    refine ⟨_, rfl, ?_⟩
    unfold getAlert at ha ⊢
    exact find?_updateFirst db.alerts aid _ a (fun x => rfl) ha
  · unfold resolve_alert
    rw [ha]
    dsimp only
    refine ⟨_, rfl, ?_⟩
    unfold getAlert at ha ⊢
    exact ⟨_, find?_updateFirst db.alerts aid _ a (fun x => rfl) ha, rfl, rfl, rfl⟩

/-- A resolved alert on file for the C10 witness. -/
def alResolved : Alert :=
  ⟨1, 1, AlertType.threshold_breach, UtilityType.water, "high", "over limit",
   some 1, AlertStatus.resolved, none, none, some 4, some 2, none⟩

/-- A pending alert on file for the C10 witness. -/
def alPending : Alert :=
  ⟨2, 1, AlertType.spike, UtilityType.water, "medium", "spike", some 1,
   AlertStatus.pending, none, none, none, none, none⟩

/-- Store for the C10 witness. -/
def dbC10 : DB := ⟨[], [], [alResolved, alPending], []⟩

theorem alert_status_transitions_witness :
    acknowledge_alert dbC10 1 7 5 = Except.error 400 ∧
      (∃ db', acknowledge_alert dbC10 2 7 5 = Except.ok db' ∧
        getAlert db' 2 =
          some { alPending with status := AlertStatus.acknowledged,
                                acknowledged_by := some 7,
                                acknowledged_at := some 5 }) ∧
      (∃ db', resolve_alert dbC10 1 7 none 5 = Except.ok db' ∧
        ∃ a', getAlert db' 1 = some a' ∧ a'.status = AlertStatus.resolved ∧
          a'.resolved_by = some 7 ∧ a'.resolved_at = some 5) :=
  ⟨(alert_status_transitions dbC10 1 7 5 none alResolved (by decide)).1 rfl,
   (alert_status_transitions dbC10 2 7 5 none alPending (by decide)).2.1
     (by decide),
   (alert_status_transitions dbC10 1 7 5 none alResolved (by decide)).2.2⟩

end SmartCampus
